import Mathlib

/-!
Verification of the Reevit React SDK checkout orchestration core.

This file is a shallow embedding, in Lean 4, of the checkout state machine,
the provider capability resolution, the PSP bridge dispatch, the initialize
guard, the payment confirmation handoff, the API error classification and
the idempotency key generation of the Reevit React SDK
(src/hooks/useReevit.ts, src/components/ReevitCheckout.tsx, src/api).

Conventions of the embedding:
- TypeScript string unions become inductive types; optional / nullable
  fields become Option; JavaScript objects used as string maps become
  association lists (List (String × String)).
- JavaScript truthiness on strings (the empty string is falsy) is made
  explicit through jsOrStr.
- 32-bit JavaScript integer arithmetic is modelled as Nat arithmetic
  modulo 2 ^ 32.
- Record fields of the source types that no verified claim depends on
  (purely presentational fields such as branding colours, fee amounts)
  are omitted from the embedded records; every field that any claim
  touches is embedded faithfully.
-/

namespace Reevit

/-- Payment method union from src/types/index.ts (PaymentMethod). -/
inductive PaymentMethod where
  | card
  | mobile_money
  | bank_transfer
  | apple_pay
  | google_pay
deriving DecidableEq, Repr

/-- Checkout state union from src/types/index.ts (CheckoutState). -/
inductive CheckoutState where
  | idle
  | loading
  | ready
  | method_selected
  | processing
  | success
  | failed
  | closed
deriving DecidableEq, Repr

/-- The six provider families recognised by mapProviderToPsp and by the
PaymentIntent.recommendedPsp union in src/types/index.ts. -/
inductive Psp where
  | paystack
  | hubtel
  | flutterwave
  | monnify
  | mpesa
  | stripe
deriving DecidableEq, Repr

/-- Lower-case identifier string of a provider family, as used by the
recommendedPsp union values in the source. -/
def pspStr : Psp → String
  | .paystack => "paystack"
  | .hubtel => "hubtel"
  | .flutterwave => "flutterwave"
  | .monnify => "monnify"
  | .mpesa => "mpesa"
  | .stripe => "stripe"

/-- Normalized failure shape from src/types/index.ts (PaymentError).
The recoverable field is optional in the source, hence Option Bool here;
originalError and details are not consulted by any verified claim. -/
structure PaymentError where
  code : String
  message : String
  recoverable : Option Bool := none
deriving DecidableEq, Repr

/-- Payment result status union (success | pending) of PaymentResult.status. -/
inductive ResultStatus where
  | success
  | pending
deriving DecidableEq, Repr

/-- Normalized success payload from src/types/index.ts (PaymentResult).
metadata is a JavaScript object of string values, embedded as an
association list where at most one binding exists per key. -/
structure PaymentResult where
  paymentId : String
  reference : String
  amount : Nat
  currency : String
  paymentMethod : PaymentMethod
  psp : String
  pspReference : String
  status : ResultStatus
  metadata : List (String × String)
deriving DecidableEq, Repr

/-- Provider option from src/types/index.ts (CheckoutProviderOption). -/
structure CheckoutProviderOption where
  provider : String
  name : String
  methods : List PaymentMethod
  countries : Option (List String) := none
deriving DecidableEq, Repr

/-- Payment intent from src/types/index.ts (PaymentIntent), restricted to
the fields the verified claims read. -/
structure PaymentIntent where
  id : String
  clientSecret : String
  pspPublicKey : Option String := none
  amount : Nat
  currency : String
  status : String
  recommendedPsp : Psp
  availableMethods : List PaymentMethod
  reference : String
  metadata : List (String × String) := []
  availableProviders : Option (List CheckoutProviderOption) := none
deriving DecidableEq, Repr

/-! ## JavaScript string helpers -/

/-- JavaScript `a || b` on an optional string: undefined/null and the
empty string are falsy, any other string is truthy. -/
def jsOrStr (a : Option String) (b : String) : String :=
  match a with
  | some s => if s = "" then b else s
  | none => b

/-- JavaScript String.prototype.toLowerCase restricted to per-character
lowering (sufficient for the ASCII identifiers the SDK compares). -/
def lowerStr (s : String) : String :=
  String.mk (s.toList.map Char.toLower)

/-- JavaScript String.prototype.trim: strips whitespace at both ends. -/
def trimStr (s : String) : String :=
  String.mk (((s.toList.dropWhile Char.isWhitespace).reverse.dropWhile
    Char.isWhitespace).reverse)

/-- Contiguous-substring check on character lists (helper for strIncludes). -/
def charsInfix (needle : List Char) : List Char → Bool
  | [] => needle.isEmpty
  | c :: t => needle.isPrefixOf (c :: t) || charsInfix needle t

/-- JavaScript String.prototype.includes: substring containment. -/
def strIncludes (hay needle : String) : Bool :=
  charsInfix needle.toList hay.toList

/-! ## Checkout state machine (src/hooks/useReevit.ts) -/

/-- State shape of the useReevit reducer (interface ReevitState). -/
structure ReevitState where
  status : CheckoutState
  paymentIntent : Option PaymentIntent
  selectedMethod : Option PaymentMethod
  error : Option PaymentError
  result : Option PaymentResult
deriving DecidableEq, Repr

/-- Actions of the useReevit reducer (type ReevitAction). -/
inductive ReevitAction where
  | INIT_START
  | INIT_SUCCESS (payload : PaymentIntent)
  | INIT_ERROR (payload : PaymentError)
  | SELECT_METHOD (payload : PaymentMethod)
  | PROCESS_START
  | PROCESS_SUCCESS (payload : PaymentResult)
  | PROCESS_ERROR (payload : PaymentError)
  | RESET
  | CLOSE
deriving DecidableEq, Repr

/-- Initial state constant of useReevit (initialState). -/
def initialState : ReevitState :=
  { status := .idle
  , paymentIntent := none
  , selectedMethod := none
  , error := none
  , result := none }

/-- Reducer of useReevit (function reevitReducer), translated case by
case from the source switch statement. -/
def reevitReducer (state : ReevitState) (action : ReevitAction) : ReevitState :=
  match action with
  | .INIT_START =>
      { state with status := .loading, error := none }
  | .INIT_SUCCESS payload =>
      { state with
          status := .ready
        , paymentIntent := some payload
        , selectedMethod :=
            if payload.availableMethods.length = 1 then
              payload.availableMethods.head?
            else none }
  | .INIT_ERROR payload =>
      { state with status := .failed, error := some payload }
  | .SELECT_METHOD payload =>
      { state with status := .method_selected, selectedMethod := some payload }
  | .PROCESS_START =>
      { state with status := .processing, error := none }
  | .PROCESS_SUCCESS payload =>
      { state with status := .success, result := some payload }
  | .PROCESS_ERROR payload =>
      { state with status := .failed, error := some payload }
  | .RESET =>
      { initialState with status := .ready, paymentIntent := state.paymentIntent }
  | .CLOSE =>
      { state with status := .closed }

/-! ## Provider mapping (src/hooks/useReevit.ts) -/

/-- Function mapProviderToPsp of useReevit.ts: maps a backend provider
name to the PSP family used by the bridges, by case-insensitive substring
match; an unknown provider falls back to paystack (the source comment
reads: Default to paystack if unknown). -/
def mapProviderToPsp (provider : String) : Psp :=
  let providerLower := lowerStr provider
  if strIncludes providerLower "paystack" then .paystack
  else if strIncludes providerLower "hubtel" then .hubtel
  else if strIncludes providerLower "flutterwave" then .flutterwave
  else if strIncludes providerLower "monnify" then .monnify
  else if strIncludes providerLower "mpesa" || strIncludes providerLower "m-pesa" then .mpesa
  else if strIncludes providerLower "stripe" then .stripe
  else .paystack

/-- Function normalizeProviderMethod of useReevit.ts. -/
def normalizeProviderMethod (method : String) : Option PaymentMethod :=
  let normalized := trimStr (lowerStr method)
  if normalized = "card" then some .card
  else if normalized = "mobile_money" || normalized = "momo" || normalized = "mobilemoney" then
    some .mobile_money
  else if normalized = "bank" || normalized = "bank_transfer" || normalized = "transfer" then
    some .bank_transfer
  else none

/-- Raw provider entry of the backend intent response (available_psps
array elements in src/api PaymentIntentResponse). -/
structure RawProvider where
  provider : String
  name : String
  methods : List String
  countries : Option (List String) := none
deriving DecidableEq, Repr

/-- Function mapAvailableProviders of useReevit.ts: normalizes each
provider method string and drops providers whose normalized method list
is empty; an absent or empty input list yields undefined. -/
def mapAvailableProviders (providers : Option (List RawProvider)) :
    Option (List CheckoutProviderOption) :=
  match providers with
  | none => none
  | some ps =>
      if ps.isEmpty then none
      else some <|
        (ps.map (fun p =>
          { provider := p.provider
          , name := p.name
          , methods := p.methods.filterMap normalizeProviderMethod
          , countries := p.countries })).filter
          (fun p => !p.methods.isEmpty)

/-- JavaScript regex replace of the first word character with its upper
case (provider.replace with a caps callback in ReevitCheckout.tsx). -/
def capitalizeFirst (s : String) : String :=
  match s.toList with
  | [] => ""
  | c :: rest => String.mk (c.toUpper :: rest)

/-- The providerOptions memo of ReevitCheckout.tsx: from the intent
derived available providers (or a synthetic fallback built from the
recommended PSP), give each empty-method entry the caller configured
paymentMethods as fallback, narrow hubtel to card and mobile money,
intersect with the caller configured paymentMethods and drop entries
left with no method. -/
def providerOptionsFn (availableProviders : List CheckoutProviderOption)
    (recommendedPsp : Option Psp) (paymentMethods : List PaymentMethod) :
    List CheckoutProviderOption :=
  let fallbackProvider : List CheckoutProviderOption :=
    match recommendedPsp with
    | some p =>
        [{ provider := pspStr p
         , name := capitalizeFirst (pspStr p)
         , methods := paymentMethods }]
    | none => []
  let options := if !availableProviders.isEmpty then availableProviders else fallbackProvider
  (options.map (fun provider =>
    let methods := if !provider.methods.isEmpty then provider.methods else paymentMethods
    let sanitizedMethods :=
      if strIncludes (lowerStr provider.provider) "hubtel" then
        methods.filter (fun m => decide (m = .card ∨ m = .mobile_money))
      else methods
    let filteredMethods := sanitizedMethods.filter (fun m => decide (m ∈ paymentMethods))
    { provider with methods := filteredMethods })).filter
    (fun provider => !provider.methods.isEmpty)

/-! ## PSP bridge dispatch (renderContent of ReevitCheckout.tsx) -/

/-- Outcome of the showPSPBridge switch in renderContent: which bridge
component is rendered, or the Provider Not Supported screen from the
default case. -/
inductive BridgeChoice where
  | paystackBridge
  | hubtelBridge
  | flutterwaveBridge
  | monnifyBridge
  | mpesaBridge
  | stripeBridge
  | providerNotSupported
deriving DecidableEq, Repr

/-- The switch (pspLower) statement of renderContent, given the already
lower-cased provider string. -/
def bridgeDispatch (pspLower : String) : BridgeChoice :=
  if pspLower = "paystack" then .paystackBridge
  else if pspLower = "hubtel" then .hubtelBridge
  else if pspLower = "flutterwave" then .flutterwaveBridge
  else if pspLower = "monnify" then .monnifyBridge
  else if pspLower = "mpesa" then .mpesaBridge
  else if pspLower = "stripe" then .stripeBridge
  else .providerNotSupported

/-- The psp string computed in renderContent:
selectedProvider || paymentIntent?.recommendedPsp || 'paystack'. -/
def renderPspString (selectedProvider : Option String)
    (paymentIntent : Option PaymentIntent) : String :=
  jsOrStr selectedProvider
    (jsOrStr (paymentIntent.map (fun i => pspStr i.recommendedPsp)) "paystack")

/-! ## Auto-advance effect (ReevitCheckout.tsx, auto-advance useEffect) -/

/-- The auto-advance effect of ReevitCheckout.tsx: computes the new value
of the showPSPBridge flag (setShowPSPBridge true fires exactly when the
result differs from the current flag, which the guard limits to false).
Launching the PSP bridge is how the checkout advances the session into
the PSP processing flow. -/
def autoAdvance (isOpen : Bool) (selectedMethod : Option PaymentMethod)
    (paymentIntent : Option PaymentIntent) (showPSPBridge : Bool)
    (selectedProvider : Option String) (momoPhone : Option String)
    (phone : String) : Bool :=
  match selectedMethod with
  | some m =>
      if isOpen && paymentIntent.isSome && !showPSPBridge then
        let psp := lowerStr (renderPspString selectedProvider paymentIntent)
        let needsPhone := strIncludes psp "mpesa"
        match m with
        | .card => true
        | .mobile_money =>
            if !needsPhone || jsOrStr momoPhone phone ≠ "" then true else showPSPBridge
        | _ => showPSPBridge
      else showPSPBridge
  | none => showPSPBridge

/-! ## Initialize guard (useReevit.ts initialize and initializingRef) -/

/-- Session state for the initialize guard: the initializingRef flag, the
count of payment-intent network requests issued so far, and the reducer
state. -/
structure InitSession where
  initializing : Bool
  requests : Nat
  machine : ReevitState
deriving DecidableEq, Repr

/-- Synchronous prefix of one initialize() invocation in useReevit.ts:
the guard check of initializingRef, the set of the flag, the INIT_START
dispatch and the issuing of the single payment-intent network request
(createPaymentIntent or the payment-link fetch) all run before the first
await, so back-to-back invocations observe the flag left by the previous
one. A call that sees initializing already true returns without any
effect. -/
def initializeStep (s : InitSession) : InitSession :=
  if s.initializing then s
  else
    { initializing := true
    , requests := s.requests + 1
    , machine := reevitReducer s.machine .INIT_START }

/-! ## Payment confirmation handoff (useReevit.ts processPayment) -/

/-- Fields of the backend confirmation response that processPayment
reads (PaymentDetailResponse.status and provider_ref_id). -/
structure ConfirmData where
  status : String
  provider_ref_id : Option String := none
deriving DecidableEq, Repr

/-- Outcome of the confirmPaymentIntent / confirmPayment call: the
request helper resolves with exactly one of data or error set. -/
inductive ConfirmOutcome where
  | ok (data : ConfirmData)
  | err (error : PaymentError)
deriving DecidableEq, Repr

/-- JavaScript object spread update on a string map: every binding of
obj except k, then a binding of k to v (later keys win). -/
def jsObjSet (obj : List (String × String)) (k v : String) :
    List (String × String) :=
  obj.filter (fun kv => kv.1 != k) ++ [(k, v)]

/-- Function processPayment of useReevit.ts, with the asynchronous
confirmation call abstracted by its outcome: a missing intent or method
returns early; otherwise PROCESS_START is dispatched, a confirmation
error dispatches PROCESS_ERROR, and a confirmation response builds the
PaymentResult (pending unless the backend status is succeeded, with the
backend status recorded under backend_status in the metadata) and
dispatches PROCESS_SUCCESS with it. -/
def processPayment (state : ReevitState) (paymentData : List (String × String))
    (confirm : ConfirmOutcome) : ReevitState :=
  match state.paymentIntent, state.selectedMethod with
  | some intent, some method =>
      let s1 := reevitReducer state .PROCESS_START
      match confirm with
      | .err e => reevitReducer s1 (.PROCESS_ERROR e)
      | .ok data =>
          let result : PaymentResult :=
            { paymentId := intent.id
            , reference := jsOrStr ((paymentData.lookup "reference"))
                (jsOrStr ((intent.metadata.lookup "reference")) "")
            , amount := intent.amount
            , currency := intent.currency
            , paymentMethod := method
            , psp := pspStr intent.recommendedPsp
            , pspReference := jsOrStr ((paymentData.lookup "pspReference"))
                (jsOrStr data.provider_ref_id "")
            , status := if data.status = "succeeded" then .success else .pending
            , metadata := jsObjSet paymentData "backend_status" data.status }
          reevitReducer s1 (.PROCESS_SUCCESS result)
  | _, _ => state

/-! ## API request error classification (src/api, ReevitAPIClient.request) -/

/-- Catch branch of ReevitAPIClient.request: classifies a thrown failure
by the Error name and message. A fired timeout aborts the fetch, which
rejects with an AbortError. None of the three error shapes sets the
recoverable field. -/
def classifyRequestFailure (isError : Bool) (errName errMessage : String) :
    PaymentError :=
  if isError && errName = "AbortError" then
    { code := "request_timeout"
    , message := "The request timed out. Please try again." }
  else if isError &&
      (strIncludes errMessage "Failed to fetch" || strIncludes errMessage "NetworkError") then
    { code := "network_error"
    , message := "Unable to connect to Reevit. Please check your internet connection." }
  else
    { code := "unknown_error"
    , message := "An unexpected error occurred. Please try again." }

/-- Computed field canRetry of useReevit: state.error?.recoverable ?? false. -/
def canRetry (state : ReevitState) : Bool :=
  (state.error.bind PaymentError.recoverable).getD false

/-- Render guard of the terminal failure screen in renderContent of
ReevitCheckout.tsx: status === failed && error && !error.recoverable
(an unset recoverable counts as not recoverable). -/
def rendersTerminalFailure (state : ReevitState) : Bool :=
  state.status = CheckoutState.failed &&
    (match state.error with
     | some e => !(e.recoverable.getD false)
     | none => false)

/-! ## Idempotency key generation (src/api, generateIdempotencyKey) -/

/-- Backend wire form of a payment method (mapPaymentMethod of the API
client and the raw union values). -/
def methodStr : PaymentMethod → String
  | .card => "card"
  | .mobile_money => "mobile_money"
  | .bank_transfer => "bank_transfer"
  | .apple_pay => "apple_pay"
  | .google_pay => "google_pay"

/-- JSON.stringify escaping of one character inside a string literal. -/
def jsonEscapeChar (c : Char) : List Char :=
  if c = '"' then ['\\', '"']
  else if c = '\\' then ['\\', '\\']
  else if c = '\n' then ['\\', 'n']
  else if c = '\r' then ['\\', 'r']
  else if c = '\t' then ['\\', 't']
  else if c.toNat = 8 then ['\\', 'b']
  else if c.toNat = 12 then ['\\', 'f']
  else if c.toNat < 32 then
    ['\\', 'u', '0', '0', Nat.digitChar (c.toNat / 16), Nat.digitChar (c.toNat % 16)]
  else [c]

/-- JSON.stringify of a string value. -/
def jsonQuote (s : String) : String :=
  "\"" ++ String.mk (s.toList.map jsonEscapeChar).flatten ++ "\""

/-- One djb2 step: hash * 33 + code, truncated to 32 bits. In the source
the truncation is hash & hash (ToInt32) each round and hash is read back
with an unsigned shift, so the value is exactly the residue mod 2 ^ 32. -/
def djb2Step (h c : Nat) : Nat :=
  (h * 33 + c) % (2 ^ 32)

/-- The djb2 hash loop of generateIdempotencyKey over the UTF-16 code
units of the stable string (equal to code points for the ASCII strings
the SDK builds). -/
def djb2 (s : String) : Nat :=
  s.toList.foldl (fun h c => djb2Step h c.toNat) 5381

/-- Parameter record hashed by generateIdempotencyKey for a create-intent
call (the object literal built in createPaymentIntent). -/
structure IdemParams where
  amount : Nat
  currency : String
  customer : String
  reference : String
  method : String
  provider : String
  publicKey : String
deriving DecidableEq, Repr

/-- Stable string of generateIdempotencyKey: the parameter keys sorted
(amount, currency, customer, method, provider, publicKey, reference in
UTF-16 order), each rendered key:JSON.stringify(value) and joined with
a vertical bar. -/
def stableString (p : IdemParams) : String :=
  "amount:" ++ toString p.amount ++
  "|currency:" ++ jsonQuote p.currency ++
  "|customer:" ++ jsonQuote p.customer ++
  "|method:" ++ jsonQuote p.method ++
  "|provider:" ++ jsonQuote p.provider ++
  "|publicKey:" ++ jsonQuote p.publicKey ++
  "|reference:" ++ jsonQuote p.reference

/-- Function generateIdempotencyKey of src/api: reevit_, the 5-minute
time bucket (Date.now() / 300000, floored, passed here explicitly), an
underscore, then the djb2 hash of the stable string in lower-case hex. -/
def generateIdempotencyKey (p : IdemParams) (timeBucket : Nat) : String :=
  "reevit_" ++ toString timeBucket ++ "_" ++
    String.mk (Nat.toDigits 16 (djb2 (stableString p)))

/-- Caller configuration fields of createPaymentIntent that feed the
idempotency key, plus fields (phone, metadata) that must not affect it. -/
structure CreateIntentConfig where
  amount : Nat
  currency : String
  email : Option String := none
  phone : Option String := none
  reference : Option String := none
  idempotencyKey : Option String := none
  metadataCustomerId : Option String := none
  metadata : List (String × String) := []
deriving DecidableEq, Repr

/-- Parameter extraction of createPaymentIntent (the object passed to
generateIdempotencyKey): customer is email || metadata customerId || empty,
method is the raw method or empty, provider is the first preferred or
first allowed provider or empty. -/
def intentIdemParams (config : CreateIntentConfig) (method : Option PaymentMethod)
    (preferredProviders allowedProviders : Option (List String))
    (publicKey : String) : IdemParams :=
  { amount := config.amount
  , currency := config.currency
  , customer := jsOrStr config.email (jsOrStr config.metadataCustomerId "")
  , reference := jsOrStr config.reference ""
  , method := jsOrStr (method.map methodStr) ""
  , provider := jsOrStr (preferredProviders.bind List.head?)
      (jsOrStr (allowedProviders.bind List.head?) "")
  , publicKey := publicKey }

/-- Idempotency-Key attached by createPaymentIntent: the caller supplied
key when truthy, otherwise the deterministic generated key. -/
def createIntentIdemKey (config : CreateIntentConfig) (method : Option PaymentMethod)
    (preferredProviders allowedProviders : Option (List String))
    (publicKey : String) (timeBucket : Nat) : String :=
  jsOrStr config.idempotencyKey
    (generateIdempotencyKey
      (intentIdemParams config method preferredProviders allowedProviders publicKey)
      timeBucket)

/-! ## Helper lemmas -/

/-- A session whose guard flag is set is a fixed point of initializeStep. -/
theorem initializeStep_fixed (s : InitSession) (h : s.initializing = true) :
    initializeStep s = s := by
  simp [initializeStep, h]

/-- Iterating initializeStep from a guarded session changes nothing. -/
theorem initializeStep_iterate_fixed (n : Nat) (s : InitSession)
    (h : s.initializing = true) : initializeStep^[n] s = s := by
  induction n with
  | zero => rfl
  | succ k ih =>
      rw [Function.iterate_succ_apply, initializeStep_fixed s h, ih]

/-- Looking up the freshly written key of a spread update finds its value. -/
theorem jsObjSet_lookup (obj : List (String × String)) (k v : String) :
    (jsObjSet obj k v).lookup k = some v := by
  induction obj with
  | nil => simp [jsObjSet, List.lookup]
  | cons kv t ih =>
      by_cases h : kv.1 = k
      · simpa [jsObjSet, h] using ih
      · have hb : (kv.1 != k) = true := by simp [bne, h]
        have hk : (k == kv.1) = false := by simp [BEq.beq]; exact fun e => h e.symm
        simp only [jsObjSet, List.filter_cons, hb, if_true, List.cons_append,
          List.lookup, hk]
        simpa [jsObjSet] using ih

/-! ## Claim theorems -/

/-- C9: for every session state, the RESET action yields status ready,
keeps the payment intent unchanged and clears selectedMethod, result and
error; no other field of the session exists to be modified. -/
theorem reset_keeps_intent_clears_selection (s : ReevitState) :
    reevitReducer s .RESET =
      { status := .ready
      , paymentIntent := s.paymentIntent
      , selectedMethod := none
      , error := none
      , result := none } := rfl

/-- C10: the reducer applies SELECT_METHOD unconditionally: from every
session state, with any status (including loading, processing, success,
failed and closed), dispatching SELECT_METHOD m yields status
method_selected with selectedMethod m and every other field untouched;
no status guard exists in the reducer case. -/
theorem select_method_unconditional (s : ReevitState) (m : PaymentMethod) :
    reevitReducer s (.SELECT_METHOD m) =
      { s with status := .method_selected, selectedMethod := some m } := rfl

/-- C1: initialize is at most once per session unless reset: a duplicate
call that observes the guard flag is a complete no-op, and invoking
initialize any positive number of times in immediate succession from an
unguarded session issues exactly one payment-intent network request. -/
theorem initialize_at_most_once_per_session :
    (∀ s : InitSession, s.initializing = true → initializeStep s = s) ∧
    (∀ (n : Nat) (s : InitSession), s.initializing = false →
      (initializeStep^[n + 1] s).requests = s.requests + 1) := by
  refine ⟨initializeStep_fixed, fun n s h => ?_⟩
  have hstep : initializeStep s =
      { initializing := true
      , requests := s.requests + 1
      , machine := reevitReducer s.machine .INIT_START } := by
    simp [initializeStep, h]
  rw [Function.iterate_succ_apply, hstep,
    initializeStep_iterate_fixed n _ rfl]

/-- Witness for C1 at a concrete session: a guarded session is unchanged
by a duplicate call, and three back-to-back calls on a fresh session
issue exactly one request. -/
theorem initialize_at_most_once_witness :
    initializeStep ⟨true, 7, initialState⟩ = ⟨true, 7, initialState⟩ ∧
    (initializeStep^[3] ⟨false, 0, initialState⟩).requests = 0 + 1 :=
  ⟨initialize_at_most_once_per_session.1 ⟨true, 7, initialState⟩ rfl,
   initialize_at_most_once_per_session.2 2 ⟨false, 0, initialState⟩ rfl⟩

/-- C2: every provider option produced by provider resolution has a
methods list that is a subset of the caller configured requested
methods, for every intent-derived provider list, recommended PSP and
configured method allow-list. -/
theorem providerOptions_methods_subset_requested
    (avail : List CheckoutProviderOption) (recPsp : Option Psp)
    (paymentMethods : List PaymentMethod) (o : CheckoutProviderOption)
    (m : PaymentMethod) (ho : o ∈ providerOptionsFn avail recPsp paymentMethods)
    (hm : m ∈ o.methods) : m ∈ paymentMethods := by
  simp only [providerOptionsFn, List.mem_filter, List.mem_map] at ho
  obtain ⟨⟨p, hp, rfl⟩, -⟩ := ho
  simp only [List.mem_filter, decide_eq_true_eq] at hm
  exact hm.2

/-- Witness for C2 at a concrete configuration: mobile money survives
resolution for a hubtel provider and is among the requested methods. -/
theorem providerOptions_methods_subset_witness :
    PaymentMethod.mobile_money ∈ [PaymentMethod.card, PaymentMethod.mobile_money] :=
  providerOptions_methods_subset_requested
    [{ provider := "hubtel", name := "Hubtel"
     , methods := [.mobile_money, .bank_transfer] }]
    none [PaymentMethod.card, PaymentMethod.mobile_money]
    { provider := "hubtel", name := "Hubtel", methods := [.mobile_money] }
    PaymentMethod.mobile_money (by decide) (by decide)

/-- C8 counterexample: a provider entry whose method list is empty is
not excluded by providerOptions; it is retained with the caller
requested methods substituted as fallback (the source reads
provider.methods.length > 0 ? provider.methods : paymentMethods), so
the claim that every empty-method provider is dropped entirely fails at
this input. -/
theorem empty_method_provider_not_excluded :
    providerOptionsFn [{ provider := "newpay", name := "NewPay", methods := [] }]
      none [PaymentMethod.card] =
      [{ provider := "newpay", name := "NewPay", methods := [PaymentMethod.card] }] := by
  decide

/-- C8 amended: backend providers whose normalized method list is empty
are dropped by mapAvailableProviders; in providerOptions a provider
entry left with zero eligible methods after the hubtel narrowing and
the intersection with the requested methods is dropped, so no presented
provider option ever has zero methods — but an entry whose method list
is empty before filtering receives the requested methods as fallback
instead of being excluded. -/
theorem provider_options_nonempty_methods :
    (∀ (ps : Option (List RawProvider)) (o : CheckoutProviderOption),
      o ∈ (mapAvailableProviders ps).getD [] → o.methods ≠ []) ∧
    (∀ (avail : List CheckoutProviderOption) (recPsp : Option Psp)
      (paymentMethods : List PaymentMethod) (o : CheckoutProviderOption),
      o ∈ providerOptionsFn avail recPsp paymentMethods → o.methods ≠ []) := by
  constructor
  · intro ps o ho
    match ps with
    | none => simp [mapAvailableProviders] at ho
    | some l =>
        by_cases hl : l.isEmpty
        · simp [mapAvailableProviders, hl] at ho
        · simp only [mapAvailableProviders, hl, Bool.false_eq_true, if_false,
            Option.getD_some, List.mem_filter] at ho
          simpa [List.isEmpty_iff] using ho.2
  · intro avail recPsp paymentMethods o ho
    simp only [providerOptionsFn, List.mem_filter] at ho
    simpa [List.isEmpty_iff] using ho.2

/-- Witness for C8 amended at concrete inputs: both conjuncts applied to
a mapped backend provider and to a resolved hubtel option, each of which
indeed has a nonempty method list. -/
theorem provider_options_nonempty_methods_witness :
    ({ provider := "a", name := "A", methods := [PaymentMethod.card] }
      : CheckoutProviderOption).methods ≠ [] ∧
    ({ provider := "hubtel", name := "Hubtel", methods := [PaymentMethod.card] }
      : CheckoutProviderOption).methods ≠ [] :=
  ⟨provider_options_nonempty_methods.1
      (some [{ provider := "a", name := "A", methods := ["card"] }])
      { provider := "a", name := "A", methods := [.card] } (by decide),
   provider_options_nonempty_methods.2
      [{ provider := "hubtel", name := "Hubtel", methods := [.card] }] none
      [PaymentMethod.card]
      { provider := "hubtel", name := "Hubtel", methods := [.card] } (by decide)⟩

/-- C4: the auto-advance effect, whenever the checkout is open with a
selected method, a present intent and no active PSP flow, always
launches the PSP flow for method card, and for method mobile_money
launches it exactly when the active provider does not require a
pre-collected phone number (the mpesa family) or a phone number is
already known (momo form value or caller supplied); otherwise the flag
stays false and the session remains at method_selected. -/
theorem auto_advance_heuristic (pi : PaymentIntent) (sp : Option String)
    (momo : Option String) (phone : String) :
    autoAdvance true (some .card) (some pi) false sp momo phone = true ∧
    autoAdvance true (some .mobile_money) (some pi) false sp momo phone =
      (!(strIncludes (lowerStr (renderPspString sp (some pi))) "mpesa") ||
        jsOrStr momo phone != "") := by
  constructor
  · rfl
  · simp only [autoAdvance, Option.isSome_some, Bool.and_self, Bool.not_false,
      Bool.and_true, if_true]
    split
    · next h =>
        simp only [Bool.or_eq_true, decide_eq_true_eq] at h
        rcases h with h | h
        · simp [h]
        · simp [h, bne_iff_ne]
    · next h =>
        simp only [Bool.or_eq_true, decide_eq_true_eq, not_or] at h
        push_neg at h
        simp only [Bool.not_eq_true] at h
        simp [h.1, bne, h.2]

/-- C3: after the PSP bridge reports success and the backend
confirmation succeeds with any status other than succeeded, the session
still transitions to status success, the backend status is preserved
under backend_status in the result metadata, and the result status is
pending rather than a failure. -/
theorem psp_success_nonsucceeded_backend_status (s : ReevitState)
    (pd : List (String × String)) (d : ConfirmData) (i : PaymentIntent)
    (m : PaymentMethod) (hi : s.paymentIntent = some i)
    (hm : s.selectedMethod = some m) (hs : d.status ≠ "succeeded") :
    (processPayment s pd (.ok d)).status = .success ∧
    ∃ r, (processPayment s pd (.ok d)).result = some r ∧
      r.metadata.lookup "backend_status" = some d.status ∧
      r.status = .pending := by
  simp only [processPayment, hi, hm, reevitReducer]
  refine ⟨trivial, _, rfl, jsObjSet_lookup pd "backend_status" d.status, ?_⟩
  simp [hs]

/-- Witness for C3 at a concrete session: a backend confirmation that
returns status processing still yields a success session whose result
records backend_status processing. -/
theorem psp_success_nonsucceeded_backend_witness :
    (processPayment
        { status := .method_selected
        , paymentIntent := some
            { id := "pi_1", clientSecret := "cs", amount := 20000
            , currency := "GHS", status := "pending"
            , recommendedPsp := .paystack, availableMethods := [.card]
            , reference := "ref_1" }
        , selectedMethod := some .card
        , error := none
        , result := none }
        [("reference", "ref_1")]
        (.ok { status := "processing" })).status = CheckoutState.success ∧
    ∃ r, (processPayment
        { status := .method_selected
        , paymentIntent := some
            { id := "pi_1", clientSecret := "cs", amount := 20000
            , currency := "GHS", status := "pending"
            , recommendedPsp := .paystack, availableMethods := [.card]
            , reference := "ref_1" }
        , selectedMethod := some .card
        , error := none
        , result := none }
        [("reference", "ref_1")]
        (.ok { status := "processing" })).result = some r ∧
      r.metadata.lookup "backend_status" = some "processing" ∧
      r.status = ResultStatus.pending :=
  psp_success_nonsucceeded_backend_status _ _ _ _ _ rfl rfl (by decide)

/-- C5 counterexample: the unknown provider string newpsp returned by
the backend as the intent provider is mapped to paystack by
mapProviderToPsp (the source defaults unknown providers to paystack),
so the checkout renders the Paystack bridge, not the provider not
supported state. -/
theorem unknown_provider_falls_back_to_paystack :
    mapProviderToPsp "newpsp" = Psp.paystack ∧
    bridgeDispatch (lowerStr (renderPspString none (some
      { id := "pi_1", clientSecret := "cs", amount := 20000
      , currency := "GHS", status := "pending"
      , recommendedPsp := mapProviderToPsp "newpsp"
      , availableMethods := [.card], reference := "r" })))
      = BridgeChoice.paystackBridge ∧
    BridgeChoice.paystackBridge ≠ BridgeChoice.providerNotSupported := by
  refine ⟨by decide, by decide, by decide⟩

/-- C5 amended: an unknown provider identifier reaching the bridge
dispatch as the selected provider string renders the provider not
supported state; but a provider identifier that only reaches the
dispatch through mapProviderToPsp (the recommended PSP of the intent)
never does, because unknown identifiers there default to paystack. -/
theorem bridge_dispatch_unknown_selected_provider (s : String)
    (pi : Option PaymentIntent) (hne : s ≠ "")
    (h1 : lowerStr s ≠ "paystack") (h2 : lowerStr s ≠ "hubtel")
    (h3 : lowerStr s ≠ "flutterwave") (h4 : lowerStr s ≠ "monnify")
    (h5 : lowerStr s ≠ "mpesa") (h6 : lowerStr s ≠ "stripe") :
    bridgeDispatch (lowerStr (renderPspString (some s) pi)) =
      BridgeChoice.providerNotSupported ∧
    ∀ t : String, bridgeDispatch (lowerStr (pspStr (mapProviderToPsp t))) ≠
      BridgeChoice.providerNotSupported := by
  constructor
  · have hr : renderPspString (some s) pi = s := by
      simp [renderPspString, jsOrStr, hne]
    rw [hr]
    simp [bridgeDispatch, h1, h2, h3, h4, h5, h6]
  · intro t
    have : ∀ p : Psp, bridgeDispatch (lowerStr (pspStr p)) ≠
        BridgeChoice.providerNotSupported := by
      intro p; cases p <;> decide
    exact this (mapProviderToPsp t)

/-- Witness for C5 amended: the selected provider string newpsp renders
the provider not supported state, and no recommended PSP ever does. -/
theorem bridge_dispatch_unknown_selected_witness :
    bridgeDispatch (lowerStr (renderPspString (some "newpsp") none)) =
      BridgeChoice.providerNotSupported ∧
    ∀ t : String, bridgeDispatch (lowerStr (pspStr (mapProviderToPsp t))) ≠
      BridgeChoice.providerNotSupported :=
  bridge_dispatch_unknown_selected_provider "newpsp" none (by decide)
    (by decide) (by decide) (by decide) (by decide) (by decide) (by decide)

/-- C6: evaluation of the code at the failing input. A fired timeout
rejects the fetch with an AbortError, which request classifies as code
request_timeout — but with the recoverable field left unset, not true: a
create-intent call that times out leaves the session failed with an
error whose canRetry computed field is false and which renders the
terminal (non-recoverable) failure screen, although the error message
itself invites a retry. -/
theorem request_timeout_unrecoverable_eval :
    (classifyRequestFailure true "AbortError" "signal is aborted").code =
      "request_timeout" ∧
    (classifyRequestFailure true "AbortError" "signal is aborted").recoverable =
      none ∧
    (reevitReducer
      { status := .loading, paymentIntent := none, selectedMethod := none
      , error := none, result := none }
      (.INIT_ERROR (classifyRequestFailure true "AbortError" "signal is aborted"))).status
      = CheckoutState.failed ∧
    canRetry (reevitReducer
      { status := .loading, paymentIntent := none, selectedMethod := none
      , error := none, result := none }
      (.INIT_ERROR (classifyRequestFailure true "AbortError" "signal is aborted")))
      = false ∧
    rendersTerminalFailure (reevitReducer
      { status := .loading, paymentIntent := none, selectedMethod := none
      , error := none, result := none }
      (.INIT_ERROR (classifyRequestFailure true "AbortError" "signal is aborted")))
      = true := by
  refine ⟨by decide, by decide, by decide, by decide, by decide⟩

/-- C7 counterexample: two create-intent parameter records that differ
in the customer field (aT versus b3) collide to the same idempotency key
within the same 5-minute bucket, because the key truncates the djb2 hash
to 32 bits; so changing a field does not always change the key. -/
theorem idempotency_key_collision :
    generateIdempotencyKey
      { amount := 2000, currency := "GHS", customer := "aT", reference := "r1"
      , method := "card", provider := "", publicKey := "pk_test_x" } 1234 =
    generateIdempotencyKey
      { amount := 2000, currency := "GHS", customer := "b3", reference := "r1"
      , method := "card", provider := "", publicKey := "pk_test_x" } 1234 ∧
    ("aT" : String) ≠ "b3" := by
  refine ⟨by rfl, by decide⟩

/-- C7 amended: the idempotency key of a create-intent call is a
deterministic function of the amount, currency, derived customer,
reference, method, preferred provider and public key within a time
bucket — two calls whose derived parameters agree produce the same key
even if any other configuration field (phone, metadata) differs; per
field uniqueness of the key, however, only holds up to 32-bit hash
collisions. -/
theorem idempotency_key_depends_only_on_fields
    (cfg1 cfg2 : CreateIntentConfig) (m1 m2 : Option PaymentMethod)
    (pp1 pp2 ap1 ap2 : Option (List String)) (pk1 pk2 : String)
    (bucket : Nat)
    (hk1 : cfg1.idempotencyKey = none) (hk2 : cfg2.idempotencyKey = none)
    (hp : intentIdemParams cfg1 m1 pp1 ap1 pk1 =
      intentIdemParams cfg2 m2 pp2 ap2 pk2) :
    createIntentIdemKey cfg1 m1 pp1 ap1 pk1 bucket =
      createIntentIdemKey cfg2 m2 pp2 ap2 pk2 bucket := by
  simp only [createIntentIdemKey, hk1, hk2, jsOrStr, hp]

/-- Witness for C7 amended: two configurations that differ in phone and
metadata but agree on the key-relevant fields produce the same key. -/
theorem idempotency_key_depends_only_on_fields_witness :
    createIntentIdemKey
      { amount := 2000, currency := "GHS", email := some "a@b.com"
      , phone := none, reference := some "r1" } (some .card) none none
      "pk_test_x" 1234 =
    createIntentIdemKey
      { amount := 2000, currency := "GHS", email := some "a@b.com"
      , phone := some "0244000000", reference := some "r1"
      , metadata := [("order", "42")] } (some .card) none none
      "pk_test_x" 1234 :=
  idempotency_key_depends_only_on_fields _ _ _ _ _ _ _ _ _ _ _
    rfl rfl rfl

end Reevit
